import Mathlib

/-!
Verification of the `meta` metadata-store specification against a shallow
embedding of the repository source.

The embedding follows the Rust source file by file:

* `src/database/path.rs`      → section `Path`
* `src/cli/query/lex.rs`      → section `QueryLex`
* `src/cli/query/lexeme.rs`
  and `src/cli/query/parse.rs` → section `QueryParse`
* `src/database/models.rs`
  and `src/database/sqlite.rs` → section `Storage`

Rust strings are embedded as Lean `String`/`List Char`; the Rust byte indices
used by the source always fall on character boundaries, so character counts
are used throughout.  Fallible Rust functions returning `Result` are embedded
as `Except`.  Loops whose termination Lean cannot see structurally take an
explicit fuel argument; every top-level entry point supplies fuel that is
provably larger than the number of iterations the loop can make, so the
fuel-exhaustion branch is unreachable.
-/

set_option autoImplicit false

namespace MetaStore

/-! ## Rust string primitives

Character-level embeddings of the `str` methods the source uses
(`trim_end_matches`, `trim_start_matches`, `trim_start`, `trim`). -/

/-- Rust `s.trim_end_matches(p)` for a closure pattern `p`: repeatedly removes
trailing characters satisfying `p`. -/
def trimEndPred (l : List Char) (p : Char → Bool) : List Char :=
  (l.reverse.dropWhile p).reverse

/-- Rust `s.trim_start_matches("//")` for the fixed two-character pattern used
by `Path::new`: repeatedly removes a leading `"//"` occurrence. -/
def trimStartDoubleSlash : List Char → List Char
  | '/' :: '/' :: rest => trimStartDoubleSlash rest
  | l => l

/-- Rust `s.trim_start()`. -/
def trimStartWs (l : List Char) : List Char :=
  l.dropWhile Char.isWhitespace

/-- Rust `s.trim()`. -/
def trimWs (l : List Char) : List Char :=
  trimEndPred (trimStartWs l) Char.isWhitespace

/-! ## Path (`src/database/path.rs`) -/

/-- `struct Path { pat: String }` from `path.rs`. -/
structure Path where
  pat : String
  deriving DecidableEq, Repr

namespace Path

/-- `Path::new` from `path.rs` lines 10–24: trim trailing `/`, trim leading
`//` pairs, then force a leading `/`. -/
def new (s : String) : Path :=
  let s1 := trimEndPred s.toList (· == '/')
  let s2 := trimStartDoubleSlash s1
  let st := if ¬ (s2.headD ' ' == '/') then '/' :: s2 else s2
  ⟨String.mk st⟩

/-- `Path::str`. -/
def str (p : Path) : String := p.pat

/-- `Path::filename` from `path.rs` line 30–32:
`&self.pat[self.pat.trim_end_matches(|c| c != '/').trim_end_matches('/').len()..]`. -/
def filename (p : Path) : String :=
  let n := (trimEndPred (trimEndPred p.pat.toList (· != '/')) (· == '/')).length
  String.mk (p.pat.toList.drop n)

/-- `Path::parent_str` from `path.rs` lines 34–43. -/
def parentStr (s : String) : String :=
  let r := trimEndPred (trimEndPred s.toList (· != '/')) (· == '/')
  if r.length > 0 then String.mk r else "/"

/-- `Path::parent`. -/
def parent (p : Path) : String := parentStr p.pat

end Path

/-! ## Lexer (`src/cli/query/lex.rs`) -/

namespace QueryLex

/-- `HexSequenceError` from `lex.rs` lines 25–29. -/
inductive HexSequenceError where
  | NotEnoughChars
  | NonHexChar
  | NonUtf8Sequence
  deriving DecidableEq, Repr

/-- `StringLiteralLexError` from `lex.rs` lines 18–23. -/
inductive StringLiteralLexError where
  | MissingClosingQuote
  | EndingEscape
  | UnknownEscape (s : String)
  | HexSequenceError (e : HexSequenceError)
  deriving DecidableEq, Repr

/-- `LexError` from `lex.rs` lines 13–16. -/
inductive LexError where
  | StringError (e : StringLiteralLexError)
  | NonLexableSequence (s : String)
  deriving DecidableEq, Repr

/-- The lexeme kinds `lex.rs` constructs (`LParen`, `RParen`, `Equals`, `And`,
`Or`, `Value`, `Identifier`).  Note that `lex.rs` uses `Equals` with no
strict/matches payload and `Identifier` for bare keys, and never constructs
`In`, `Comma` or a matches-equals. -/
inductive LexemeKind where
  | LParen
  | RParen
  | Equals
  | And
  | Or
  | Value
  | Identifier
  deriving DecidableEq, Repr

/-- The two-field lexeme `lex.rs` builds via `Lexeme::new(token, kind)`. -/
structure Lexeme where
  token : String
  kind : LexemeKind
  deriving DecidableEq, Repr

/-- The numeric value of a hexadecimal digit, or `none`
(the validity condition of Rust `from_str_radix(s, 16)` per digit). -/
def hexVal (c : Char) : Option Nat :=
  if '0' ≤ c ∧ c ≤ '9' then some (c.toNat - '0'.toNat)
  else if 'a' ≤ c ∧ c ≤ 'f' then some (c.toNat - 'a'.toNat + 10)
  else if 'A' ≤ c ∧ c ≤ 'F' then some (c.toNat - 'A'.toNat + 10)
  else none

/-- `x_sequence_to_char` from `lex.rs` lines 48–63: consumes two characters
from the iterator (embedded as returning the remaining characters) and decodes
them as a hexadecimal byte. `char::from(u8)` never fails. -/
def xSequenceToChar (l : List Char) : Except HexSequenceError (Char × List Char) :=
  match l with
  | [] => .error .NotEnoughChars
  | [_] => .error .NotEnoughChars
  | a :: b :: rest =>
    match hexVal a, hexVal b with
    | some va, some vb => .ok (Char.ofNat (va * 16 + vb), rest)
    | _, _ => .error .NonHexChar

/-- `u_sequence_to_char` from `lex.rs` lines 82–100: consumes four characters
and decodes them as a hexadecimal Unicode scalar value.  The source returns
`Err(NotEnoughChars)` when `char::try_from(n)` fails on a non-scalar value
(line 95) — the declared `NonUtf8Sequence` variant is never produced; the
embedding reproduces this. -/
def uSequenceToChar (l : List Char) : Except HexSequenceError (Char × List Char) :=
  match l with
  | a :: b :: c :: d :: rest =>
    match hexVal a, hexVal b, hexVal c, hexVal d with
    | some va, some vb, some vc, some vd =>
      let n := ((va * 16 + vb) * 16 + vc) * 16 + vd
      -- char::try_from(u32) fails exactly on surrogates and on values ≥ 0x110000
      if (0xD800 ≤ n ∧ n < 0xE000) ∨ 0x110000 ≤ n then .error .NotEnoughChars
      else .ok (Char.ofNat n, rest)
    | _, _, _, _ => .error .NonHexChar
  | _ => .error .NotEnoughChars

/-- Loop body of `lex_string_literal` (`lex.rs` lines 110–141).  `acc` is the
`ret` accumulator (which the source seeds with the opening quote and into
which it also pushes the closing quote), `consumed` counts the characters
taken from the iterator so far (the source's `position_bytes`, which here is
a character count since all indices fall on character boundaries).  The
escape table mirrors the source exactly — including the fact that the third
arm's pattern is the literal tab character `'\t'`, not `'t'`, so `\t` in the
input falls through to the catch-all and decodes to `'t'`. -/
def lexStringLoop (quote : Char) (fuel : Nat) (acc : List Char) (consumed : Nat)
    (l : List Char) : Except StringLiteralLexError (List Char × Nat) :=
  match fuel with
  | 0 => .error .MissingClosingQuote
  | fuel + 1 =>
    match l with
    | [] => .error .MissingClosingQuote
    | c :: rest =>
      if c == '\\' then
        match rest with
        | [] => .error .EndingEscape
        | e :: rest2 =>
          match e with
          | 'n' => lexStringLoop quote fuel (acc ++ ['\n']) (consumed + 2) rest2
          | 'r' => lexStringLoop quote fuel (acc ++ ['\r']) (consumed + 2) rest2
          | '\t' => lexStringLoop quote fuel (acc ++ ['\t']) (consumed + 2) rest2
          | '\\' => lexStringLoop quote fuel (acc ++ ['\\']) (consumed + 2) rest2
          | '\'' => lexStringLoop quote fuel (acc ++ ['\'']) (consumed + 2) rest2
          | '"' => lexStringLoop quote fuel (acc ++ ['"']) (consumed + 2) rest2
          | 'x' =>
            match xSequenceToChar rest2 with
            | .error err => .error (.HexSequenceError err)
            | .ok (ch, rest3) =>
              lexStringLoop quote fuel (acc ++ [ch])
                (consumed + 2 + (rest2.length - rest3.length)) rest3
          | 'u' =>
            match uSequenceToChar rest2 with
            | .error err => .error (.HexSequenceError err)
            | .ok (ch, rest3) =>
              lexStringLoop quote fuel (acc ++ [ch])
                (consumed + 2 + (rest2.length - rest3.length)) rest3
          | other => lexStringLoop quote fuel (acc ++ [other]) (consumed + 2) rest2
      else if c == quote then
        .ok (acc ++ [c], consumed + 1)
      else
        lexStringLoop quote fuel (acc ++ [c]) (consumed + 1) rest

/-- `lex_string_literal` from `lex.rs` lines 102–144.  Returns the decoded
accumulator (which includes both quotes, as the source pushes them into
`ret`) and the source's second component `&slice[..iter.position_bytes()]` —
the *consumed prefix* of the slice (as written in the source; note this is
the prefix, not the remainder).  The caller guarantees the slice starts with
a quote; on an empty slice the source would panic on `unwrap()`. -/
def lexStringLiteral (slice : String) : Except StringLiteralLexError (String × String) :=
  match slice.toList with
  | [] => .error .MissingClosingQuote
  | q :: rest =>
    match lexStringLoop q slice.toList.length [q] 1 rest with
    | .error e => .error e
    | .ok (ret, consumed) =>
      .ok (String.mk ret, String.mk (slice.toList.take consumed))

/-- A word character for the purpose of the regexes' `\b` boundary:
`[A-Za-z0-9_]`. -/
def isWordChar (c : Char) : Bool :=
  c.isAlpha || c.isDigit || c == '_'

/-- Whether a `\b` word boundary holds at position `i` of `l` (out-of-range
positions count as non-word). -/
def wordBoundaryAt (l : List Char) (i : Nat) : Bool :=
  let before := match l.get? (i - 1) with
    | some c => if i = 0 then false else isWordChar c
    | none => false
  let after := match l.get? i with
    | some c => isWordChar c
    | none => false
  before != after

/-- A character of the identifier class `[a-zA-Z0-9\-_]` of `ID_REGEX`
(`lex.rs` line 146). -/
def isIdChar (c : Char) : Bool :=
  c.isAlpha || c.isDigit || c == '-' || c == '_'

/-- Backtracking search for the match length of `^[a-zA-Z0-9\-_]+\b`: the
largest `k` not exceeding the maximal identifier-class run such that a word
boundary holds after `k` characters (regex matching is greedy and backtracks
off the boundary assertion). -/
def idMatchLen (l : List Char) : Nat → Option Nat
  | 0 => none
  | k + 1 => if wordBoundaryAt l (k + 1) then some (k + 1) else idMatchLen l k

/-- Match of `ID_REGEX` at the start of the slice (`re.find` with an
anchored pattern): the matched text and the rest. -/
def idMatch (l : List Char) : Option (List Char × List Char) :=
  let run := (l.takeWhile isIdChar).length
  match idMatchLen l run with
  | some k => some (l.take k, l.drop k)
  | none => none

/-- Match of one anchored literal-token regex: `lit` must be a prefix of `l`,
and when the pattern ends in `\b` (the `is`/`and`/`or` entries) a word
boundary must hold after it. -/
def literalMatch (lit : List Char) (boundary : Bool) (l : List Char) :
    Option (List Char × List Char) :=
  if l.take lit.length == lit ∧ (¬ boundary ∨ wordBoundaryAt l lit.length) then
    some (lit, l.drop lit.length)
  else
    none

/-- `LITERAL_TOKENS` from `lex.rs` lines 148–156, in source order: the seven
entries `^\(`, `^\)`, `^==`, `^=`, `^is\b`, `^and\b`, `^or\b` with their
kinds.  (`Comma`, `In` and a matches-equals do not appear in the table.) -/
def LITERAL_TOKENS : List (List Char × Bool × LexemeKind) :=
  [ ("(".toList, false, .LParen),
    (")".toList, false, .RParen),
    ("==".toList, false, .Equals),
    ("=".toList, false, .Equals),
    ("is".toList, true, .Equals),
    ("and".toList, true, .And),
    ("or".toList, true, .Or) ]

/-- First matching entry of `LITERAL_TOKENS` (the `for (re, kind)` loop of
`get_token`). -/
def findLiteral (l : List Char) : List (List Char × Bool × LexemeKind) →
    Option (List Char × LexemeKind × List Char)
  | [] => none
  | (lit, b, kind) :: rest =>
    match literalMatch lit b l with
    | some (m, after) => some (m, kind, after)
    | none => findLiteral l rest

/-- `slice_until` from `format/str.rs` lines 83–93: the prefix up to and
*including* the first character satisfying the predicate (the iterator has
already consumed it when the slice is taken), or the whole slice. -/
def sliceUntil (l : List Char) (p : Char → Bool) : List Char :=
  match l with
  | [] => []
  | c :: rest => if p c then [c] else c :: sliceUntil rest p

/-- `get_token` from `lex.rs` lines 158–187: trim leading whitespace, try the
literal tokens in order, then a quoted string literal, then `ID_REGEX`, else
fail with `NonLexableSequence` of the text up to the next whitespace. -/
def get_token (slice : String) : Except LexError (Lexeme × String) :=
  let l := trimStartWs slice.toList
  match findLiteral l LITERAL_TOKENS with
  | some (m, kind, after) => .ok (⟨String.mk m, kind⟩, String.mk after)
  | none =>
    if l.headD ' ' == '\'' || l.headD ' ' == '"' then
      match lexStringLiteral (String.mk l) with
      | .ok s => .ok (⟨s.1, .Value⟩, s.2)
      | .error e => .error (.StringError e)
    else
      match idMatch l with
      | some (m, after) => .ok (⟨String.mk m, .Identifier⟩, String.mk after)
      | none => .error (.NonLexableSequence (String.mk (sliceUntil l Char.isWhitespace)))

/-- The `while slice.len() > 0` loop of `lex` (`lex.rs` lines 202–211),
with fuel (the source loop need not terminate: the string-literal branch of
`get_token` hands back the consumed prefix rather than the remainder). -/
def lexLoop (fuel : Nat) (slice : List Char) (acc : List Lexeme) :
    Except LexError (List Lexeme) :=
  match fuel with
  | 0 => .ok acc
  | fuel + 1 =>
    if slice.length = 0 then .ok acc
    else
      match get_token (String.mk slice) with
      | .error e => .error e
      | .ok (lexeme, s) => lexLoop fuel (trimStartWs s.toList) (acc ++ [lexeme])

/-- `lex` from `lex.rs` lines 189–214: join the raw arguments with spaces,
wrapping any argument containing a space in parentheses, then tokenize. -/
def lex (args : List String) : Except LexError (List Lexeme) :=
  let s := " ".intercalate (args.map fun arg =>
    if arg.toList.contains ' ' then "(" ++ arg ++ ")" else arg)
  lexLoop (s.length + 1) (trimWs s.toList) []

end QueryLex

/-! ## Parser (`src/cli/query/lexeme.rs` and `src/cli/query/parse.rs`)

`lexeme.rs` declares a richer lexeme vocabulary than `lex.rs` constructs:
`LexemeKind` here has `Equals(EqualityKind)`, `Key`, `In` and `Comma`, and a
`Lexeme` carries its source text, kind, the reconstructed command line and
its index in it.  The parser consumes a queue of these lexemes; the queue is
embedded as a `List` passed in and returned (the source mutates a
`VecDeque`). -/

namespace QueryParse

/-- `EqualityKind` from `lexeme.rs` lines 66–70. -/
inductive EqualityKind where
  | Strict
  | Matches
  deriving DecidableEq, Repr

/-- `LexemeKind` from `lexeme.rs` lines 53–64. -/
inductive LexemeKind where
  | LParen
  | RParen
  | Equals (e : EqualityKind)
  | Or
  | And
  | Key
  | Value
  | In
  | Comma
  deriving DecidableEq, Repr

/-- `Lexeme` from `lexeme.rs` lines 14–20: token text, kind, the
reconstructed command line and the token's index within it. -/
structure Lexeme where
  token : String
  kind : LexemeKind
  cmdline : String
  cmdline_index : Nat
  deriving DecidableEq, Repr

/-- `LexemeQueue::pop_kind` (`lexeme.rs` lines 93–95): pop the front lexeme
iff it has the given kind. -/
def popKind (kind : LexemeKind) (q : List Lexeme) : Option (Lexeme × List Lexeme) :=
  match q with
  | [] => none
  | l :: rest => if l.kind == kind then some (l, rest) else none

mutual
/-- `OrQuery` from `parse.rs` lines 24–27. -/
inductive OrQuery where
  | mk (and_query : AndQuery) (next : Option OrQuery)

/-- `AndQuery` from `parse.rs` lines 29–32. -/
inductive AndQuery where
  | mk (factor : Factor) (next : Option AndQuery)

/-- `Factor` from `parse.rs` lines 34–39. -/
inductive Factor where
  | Query (q : OrQuery)
  | Key (s : String)
  | KeyEqualsValue (t : String × EqualityKind × String)
  | KeyIn (t : String × List String)
end

/-- `ParseError` from `parse.rs` lines 41–45: `UnexpectedEOF` carries only a
message `String`; `UnexpectedToken` carries the offending lexeme and a
message; `TrailingToken` carries the offending lexeme. -/
inductive ParseError where
  | UnexpectedEOF (msg : String)
  | UnexpectedToken (t : Lexeme × String)
  | TrailingToken (t : Lexeme)
  deriving DecidableEq, Repr

/-- The lexeme (and hence source text and command-line position) a
`ParseError` carries, if any. -/
def ParseError.lexemeInfo : ParseError → Option Lexeme
  | .UnexpectedEOF _ => none
  | .UnexpectedToken (l, _) => some l
  | .TrailingToken l => some l

/-- The command-line offset a `LexError` carries.  Neither variant of
`LexError` (`lex.rs` lines 13–16) has a position field, so no lex failure
carries one. -/
def lexErrorPosition : QueryLex.LexError → Option Nat
  | _ => none

/-- The statement `lexemes.pop_kind(LexemeKind::Comma);` with the result
discarded: the queue after popping an optional leading comma. -/
def popCommaRest (q : List Lexeme) : List Lexeme :=
  match popKind .Comma q with
  | some (_, rest) => rest
  | none => q

/-- The `while let Some(s) = lexemes.pop_predicate(...)` loop of
`parse_values` (`parse.rs` lines 164–167), with a structural fuel argument:
each iteration consumes at least the popped lexeme, so fuel larger than the
queue length makes the `0` branch unreachable. -/
def parseValuesLoop (fuel : Nat) (q : List Lexeme) : List String × List Lexeme :=
  match fuel with
  | 0 => ([], q)
  | fuel + 1 =>
    match q with
    | [] => ([], [])
    | l :: rest =>
      if l.kind == .Key || l.kind == .Value then
        let (vs, q2) := parseValuesLoop fuel (popCommaRest rest)
        (l.token :: vs, q2)
      else ([], l :: rest)

/-- `parse_values` from `parse.rs` lines 161–170: pop lexemes while the front
is a `Key` or `Value`, dropping an optional comma after each; the source
wraps the result in `Ok` and has no failing path. -/
def parse_values (q : List Lexeme) : List String × List Lexeme :=
  parseValuesLoop (q.length + 1) q

mutual
/-- `parse_or_query` from `parse.rs` lines 57–70, with a structural fuel
argument (the mutual recursion consumes at least one lexeme per nesting
level, so any fuel larger than the queue length makes the `0` branch
unreachable; `parse` below supplies such fuel). -/
def parse_or_query (fuel : Nat) (q : List Lexeme) :
    Except ParseError (OrQuery × List Lexeme) :=
  match fuel with
  | 0 => .error (.UnexpectedEOF "recursion fuel exhausted (unreachable)")
  | fuel + 1 => do
    let (aq, q) ← parse_and_query fuel q
    match popKind .Or q with
    | some (_, q2) => do
      let (nxt, q3) ← parse_or_query fuel q2
      pure (.mk aq (some nxt), q3)
    | none => pure (.mk aq none, q)

/-- `parse_and_query` from `parse.rs` lines 72–85. -/
def parse_and_query (fuel : Nat) (q : List Lexeme) :
    Except ParseError (AndQuery × List Lexeme) :=
  match fuel with
  | 0 => .error (.UnexpectedEOF "recursion fuel exhausted (unreachable)")
  | fuel + 1 => do
    let (f, q) ← parse_factor fuel q
    match popKind .And q with
    | some (_, q2) => do
      let (nxt, q3) ← parse_and_query fuel q2
      pure (.mk f (some nxt), q3)
    | none => pure (.mk f none, q)

/-- `parse_factor` from `parse.rs` lines 87–159.  All messages are copied
from the source verbatim.  Note the source pops the lexeme after a key
unconditionally: a bare key that is not the last lexeme of the queue fails
with `UnexpectedToken` unless the following lexeme is `In` or `Equals`. -/
def parse_factor (fuel : Nat) (q : List Lexeme) :
    Except ParseError (Factor × List Lexeme) :=
  match fuel with
  | 0 => .error (.UnexpectedEOF "recursion fuel exhausted (unreachable)")
  | fuel + 1 =>
    match q with
    | [] => .error (.UnexpectedEOF "Expected a key or a subquery, but no more arguments were available. Most likely you forgot to fill in the right half of an 'and' or 'or' query.")
    | tok :: q =>
      match tok.kind with
      | .LParen => do
        let (expr, q) ← parse_or_query fuel q
        match q with
        | s :: q2 =>
          if s.kind != .RParen then
            .error (.UnexpectedEOF "Expected a ')'. Most likely you forgot to include a closing ')'")
          else
            .ok (.Query expr, q2)
        | [] => .error (.UnexpectedToken (tok, "Expected a ')'. Most likely you forgot to include a closing ')'"))
      | .Key =>
        match q with
        | [] => .ok (.Key tok.token, [])
        | next :: q =>
          match next.kind with
          | .In =>
            match q with
            | s :: q2 =>
              if s.kind != .LParen then
                .error (.UnexpectedToken (s, "Expected '(' after 'in'"))
              else
                let (values, q3) := parse_values q2
                match popCommaRest q3 with
                | s2 :: q5 =>
                  if s2.kind != .RParen then
                    .error (.UnexpectedToken (s2, "Expected ')' to close the 'in' values. Most likely you forgot to include the closing ')'."))
                  else
                    .ok (.KeyIn (tok.token, values), q5)
                | [] => .error (.UnexpectedEOF "Expected ')' to close the 'in' values. Most likely you forgot to include the closing ')'.")
            | [] => .error (.UnexpectedEOF "Expected ')' after 'in'. Most likely you have an extra trailing 'in'.")
          | .Equals e =>
            match q with
            | s :: q2 =>
              if s.kind != .Key && s.kind != .Value then
                .error (.UnexpectedToken (s, "Expected a key or a value."))
              else
                .ok (.KeyEqualsValue (tok.token, e, s.token), q2)
            | [] => .error (.UnexpectedEOF ("Expected a value after '" ++ next.token ++ "'."))
          | _ => .error (.UnexpectedToken (next, "Expected 'in', '=', '==', or 'matches'."))
      | _ => .error (.UnexpectedToken (tok, "Expected '(' or a key."))
end

/-- `parse` from `parse.rs` lines 47–55: parse an or-query and fail with
`TrailingToken` if lexemes remain.  The fuel passed to the mutually
recursive productions exceeds the deepest possible recursion (each
level of nesting consumes at least one lexeme). -/
def parse (lexemes : List Lexeme) : Except ParseError OrQuery := do
  let (or_query, rest) ← parse_or_query (3 * lexemes.length + 3) lexemes
  match rest with
  | s :: _ => .error (.TrailingToken s)
  | [] => pure or_query

end QueryParse

/-! ## Storage engine (`src/database/models.rs`, `src/database/sqlite.rs`)

The opaque persistence provider is embedded as an explicit relational state:
one list per table, plus an autoincrement counter for fresh row ids.  Each
engine operation is a function from a state (and its arguments) to an
`Except SqliteError` of its result and the successor state.  Diesel
query-builder calls are embedded by their documented SQL semantics:
`filter` is `List.filter`, `first(...).optional()` is `List.find?`,
`insert_or_ignore_into` skips rows that would violate the table's uniqueness
constraint, and `path.like(p)` is SQL `LIKE` pattern matching. -/

namespace Storage

/-- `Directory` from `models.rs` lines 12–15. -/
structure Directory where
  id : Nat
  path : String
  deriving DecidableEq, Repr

/-- `File` from `models.rs` lines 32–37. -/
structure File where
  id : Nat
  directory_id : Nat
  filename : String
  hash : List Nat
  deriving DecidableEq, Repr

/-- `FileKeyValuePair` from `models.rs` lines 57–62. -/
structure FileKeyValuePair where
  id : Nat
  file_id : Nat
  key : String
  value : String
  deriving DecidableEq, Repr

/-- `DirectoryKeyValuePair` from `models.rs` lines 76–81. -/
structure DirectoryKeyValuePair where
  id : Nat
  directory_id : Nat
  key : String
  value : String
  deriving DecidableEq, Repr

/-- The `Entry` sum type (File or Directory).  It is referenced throughout
`sqlite.rs` as `super::database::Entry`; its two constructors are fixed by
every `match` over it in `sqlite.rs` (e.g. lines 84–103). -/
inductive Entry where
  | File (f : File)
  | Directory (d : Directory)
  deriving DecidableEq, Repr

/-- `SqliteError` from `sqlite.rs` lines 19–22 (the opaque
`diesel::result::Error` payload is embedded as a message string). -/
inductive SqliteError where
  | DbError (e : String)
  | ApplicationError (s : String)
  deriving DecidableEq, Repr

/-- The four tables of §3 plus an autoincrement id counter. -/
structure DBState where
  directories : List Directory
  files : List File
  fileMeta : List FileKeyValuePair
  dirMeta : List DirectoryKeyValuePair
  nextId : Nat
  deriving DecidableEq, Repr

/-- SQL `LIKE` pattern matching (the semantics of diesel's `path.like(...)`
on SQLite): `%` matches any sequence — embedded as a match of the remaining
pattern against some suffix of the string — `_` matches any single
character, anything else itself.  (SQLite additionally folds ASCII case;
none of the paths compared here differ in case, so case folding is
omitted.) -/
def likeMatch : List Char → List Char → Bool
  | [], s => s.isEmpty
  | '%' :: ps, s => (List.tails s).any fun t => likeMatch ps t
  | '_' :: ps, s =>
    (match s with
     | [] => false
     | _ :: ss => likeMatch ps ss)
  | p :: ps, s =>
    (match s with
     | [] => false
     | c :: ss => p == c && likeMatch ps ss)

/-- Whether a string is free of the SQL `LIKE` wildcards `%` and `_`
(true of every path used by the repository's tests and of every
slash-separated filesystem path). -/
def noLikeWildcards (s : String) : Bool :=
  s.toList.all fun c => c != '%' && c != '_'

/-- Modelled from the spec: the free function `preprocess` is called by
`sqlite.rs` (e.g. lines 811, 926, 988) but is missing from `src/`; per §4.1
it normalizes the raw path string, i.e. it is `Path::new` normalization. -/
def preprocess (p : String) : String :=
  (Path.new p).str

/-- Modelled from the spec: the free function `parent_dir` is imported from
`super::path` by `models.rs` and called by `sqlite.rs` but is missing from
`src/`; per §3 and §7 ("path has no parent, e.g. operating on root") the
root has no parent and every other normalized path's parent is the path with
the last segment removed. -/
def parent_dir (p : String) : Option String :=
  let n := (Path.new p).str
  if n = "/" then none else some (Path.parentStr n)

/-- Modelled from the spec: the free function `super::path::filename` is
called by `sqlite.rs` (lines 553, 588, 1000, 1035) but is missing from
`src/`; per §3 it is the final path segment. -/
def filename (p : String) : String :=
  String.mk (((Path.new p).str.toList.reverse.takeWhile (· != '/')).reverse)

/-- `entry_metadata_get` from `sqlite.rs` lines 106–127:
`belonging_to(owner).filter(key.eq(k)).select(value).first(...).optional()`. -/
def entry_metadata_get (db : DBState) (entry : Entry) (k : String) :
    Except SqliteError (Option String) :=
  match entry with
  | .File f =>
    .ok ((db.fileMeta.find? fun r => r.file_id == f.id && r.key == k).map (·.value))
  | .Directory d =>
    .ok ((db.dirMeta.find? fun r => r.directory_id == d.id && r.key == k).map (·.value))

/-- `entry_metadata_set` from `sqlite.rs` lines 129–206.  The `None` branch
deletes the owner's rows with the given key; the insert branch inserts a row
for the owner; the update branch runs
`update(FileMetadata).filter(key.eq(k)).set(value.eq(val))` (and the
directory analogue), i.e. it filters **only on the key**, with no
`belonging_to`/owner constraint — the embedding reproduces this.  Returns the
previous value. -/
def entry_metadata_set (db : DBState) (entry : Entry) (k : String) (v : Option String) :
    Except SqliteError (Option String × DBState) := do
  let existing ← entry_metadata_get db entry k
  match v with
  | none =>
    match entry with
    | .File f =>
      .ok (existing, { db with fileMeta := db.fileMeta.filter fun r => ¬ (r.file_id == f.id && r.key == k) })
    | .Directory d =>
      .ok (existing, { db with dirMeta := db.dirMeta.filter fun r => ¬ (r.directory_id == d.id && r.key == k) })
  | some val =>
    match existing with
    | none =>
      match entry with
      | .File f =>
        .ok (existing, { db with
          fileMeta := db.fileMeta ++ [⟨db.nextId, f.id, k, val⟩],
          nextId := db.nextId + 1 })
      | .Directory d =>
        .ok (existing, { db with
          dirMeta := db.dirMeta ++ [⟨db.nextId, d.id, k, val⟩],
          nextId := db.nextId + 1 })
    | some _ =>
      match entry with
      | .File _ =>
        .ok (existing, { db with
          fileMeta := db.fileMeta.map fun r => if r.key == k then { r with value := val } else r })
      | .Directory _ =>
        .ok (existing, { db with
          dirMeta := db.dirMeta.map fun r => if r.key == k then { r with value := val } else r })

/-- `directory_entries` from `sqlite.rs` lines 316–335: directories matched
by `path.like(d.path + "%")`, files matched by `directory_id` membership in
the matched directories' ids, concatenated as directory entries then file
entries. -/
def directory_entries (db : DBState) (d : Directory) :
    Except SqliteError (List Entry) :=
  let dirs := db.directories.filter fun x => likeMatch (d.path ++ "%").toList x.path.toList
  let ids := dirs.map (·.id)
  let files := db.files.filter fun f => ids.contains f.directory_id
  .ok (dirs.map Entry.Directory ++ files.map Entry.File)

/-- `SqliteDatabase::get_directory` from `sqlite.rs` lines 808–816:
`filter(path.eq(p).or(path.eq(p.trim_end_matches("/")))).first(...).optional()`. -/
def get_directory (db : DBState) (p : String) : Except SqliteError (Option Directory) :=
  let p' := preprocess p
  let trimmed := String.mk (trimEndPred p'.toList (· == '/'))
  .ok (db.directories.find? fun d => d.path == p' || d.path == trimmed)

/-- `INSERT OR IGNORE` of one row into `Directories` (unique on `path`):
returns the number of inserted rows and the successor state.  The source's
`add_directory` uses plain `insert_into` but then branches on `res == 0`,
which is the or-ignore result contract; the embedding follows that
contract. -/
def insertDirIgnore (db : DBState) (p : String) : Nat × DBState :=
  if db.directories.any (·.path == p) then (0, db)
  else (1, { db with
    directories := db.directories ++ [⟨db.nextId, p⟩],
    nextId := db.nextId + 1 })

/-- `SqliteDatabase::add_directory` from `sqlite.rs` lines 923–954: insert
the path, read the row back, and if it was new run the ancestor loop.  The
loop condition `while let Some(p) = parent_dir(p)` re-reads the *outer* `p`
(the inner binding is scoped to the loop body), so it is constant: the first
iteration inserts the immediate parent and either breaks (`res == 0`) or the
second iteration re-inserts the same parent, gets `res == 0`, and breaks.
Net effect, embedded here: at most one insertion of the immediate parent. -/
def add_directory (db : DBState) (p : String) :
    Except SqliteError ((Directory × Bool) × DBState) := do
  let p' := preprocess p
  let (res, db1) := insertDirIgnore db p'
  match db1.directories.find? (·.path == p') with
  | none => .error (.DbError "NotFound")
  | some dir =>
    if res = 0 then .ok ((dir, false), db1)
    else
      match parent_dir p' with
      | none => .ok ((dir, true), db1)
      | some par =>
        let (_, db2) := insertDirIgnore db1 par
        .ok ((dir, true), db2)

/-- `INSERT OR IGNORE` of a batch into `Files` (unique on
`(directory_id, filename)`): rows whose key already exists are skipped. -/
def insertFilesIgnore (db : DBState) (rows : List (Nat × String × List Nat)) : DBState :=
  match rows with
  | [] => db
  | (did, fname, h) :: rest =>
    let db' :=
      if db.files.any fun f => f.directory_id == did && f.filename == fname then db
      else { db with files := db.files ++ [⟨db.nextId, did, fname, h⟩], nextId := db.nextId + 1 }
    insertFilesIgnore db' rest

/-- `group_by` from `linq/group_by.rs`: group the list by a key, keeping
per-group insertion order.  (The source accumulates into a `HashMap`, whose
iteration order is unspecified; the embedding uses first-seen key order,
which is irrelevant to the claims checked here.) -/
def groupBy {α κ : Type} [BEq κ] (l : List α) (f : α → κ) : List (κ × List α) :=
  l.foldl (fun acc t =>
    let k := f t
    if acc.any (·.1 == k) then
      acc.map fun g => if g.1 == k then (g.1, g.2 ++ [t]) else g
    else acc ++ [(k, [t])]) []

/-- The `for (parent, tuples) in groups` loop of `add_files` (`sqlite.rs`
lines 1027–1042): look up or create the parent directory, then
insert-or-ignore the group's file rows. -/
def addFilesLoop (db : DBState)
    (groups : List (String × List (Option String × String × List Nat))) :
    Except SqliteError DBState :=
  match groups with
  | [] => .ok db
  | (parent, tuples) :: rest => do
    let dirOpt ← get_directory db parent
    let (dir, db1) ←
      match dirOpt with
      | some d => Except.ok (d, db)
      | none => (add_directory db parent).map fun x => (x.1.1, x.2)
    let newFiles := tuples.map fun t => (dir.id, filename t.2.1, t.2.2)
    let db2 := insertFilesIgnore db1 newFiles
    addFilesLoop db2 rest

/-- `SqliteDatabase::add_files` from `sqlite.rs` lines 1011–1045 (the
`UnsynchronizedSqliteDatabase` version at lines 564–598 has the identical
body): map each `(path, hash)` to `(parent_dir, preprocessed, hash)`, fail if
any path has no parent, group by parent, run the insertion loop — and then
unconditionally `return Err(ApplicationError("".to_owned()))` (line 1044). -/
def add_files (db : DBState) (paths : List (String × List Nat)) :
    Except SqliteError (Nat × DBState) := do
  let it := paths.map fun e => (parent_dir e.1, preprocess e.1, e.2)
  let errors := it.filter (·.1.isNone)
  if errors.length > 0 then
    .error (.ApplicationError
      ("The following paths cannot have a parent directory: " ++
        String.intercalate ", " (errors.map (·.2.1))))
  else
    let groups := groupBy it fun e => e.1.getD ""
    let _ ← addFilesLoop db groups
    .error (.ApplicationError "")

end Storage

/-! ## Lock manager (`src/database/sqlite.rs` lines 602–714)

The lock protocol is embedded as the sequence of lock/unlock events a method
execution produces, derived from the source statement by statement using
Rust's documented drop rules: a value bound by the wildcard pattern in
`let _ = expr;` is not bound to anything and is dropped at the end of that
statement.  This applies twice in the source:

* in `SqliteDatabase::ctx` (line 659), `let _ = self.lock_mtx.lock()...;`
  drops the `MutexGuard` immediately, before the acquisition `for` loop;
* in every engine method (e.g. `file_metadata_set`, line 711),
  `let _ = self.ctx(&[...]);` drops the returned
  `SqliteDatabaseLockContext` immediately, releasing its stored guards (in
  struct field order `file`, `file_meta`, `dir`, `dir_meta`) before the
  `self.usd...` provider call on the next line. -/

namespace Locks

/-- `Lock` from `sqlite.rs` lines 624–629 (the four logical resources). -/
inductive Resource where
  | File
  | FileMeta
  | Dir
  | DirMeta
  deriving DecidableEq, Repr

/-- `LockMode` from `sqlite.rs` lines 631–634. -/
inductive LockMode where
  | Read
  | Write
  deriving DecidableEq, Repr

/-- One observable locking event of a method execution. -/
inductive Event where
  | metaMutexLock
  | metaMutexUnlock
  | lockAcquire (r : Resource) (m : LockMode)
  | lockRelease (r : Resource)
  | providerCall
  | methodReturn
  deriving DecidableEq, Repr

/-- The guard fields of `SqliteDatabaseLockContext` (`sqlite.rs` lines
617–622) in declaration order, which is the order guards are dropped in. -/
def fieldOrder : List Resource := [.File, .FileMeta, .Dir, .DirMeta]

/-- Events produced by `SqliteDatabase::ctx` (`sqlite.rs` lines 648–676):
the meta-mutex is locked and — because its guard is discarded with
`let _ =` — immediately unlocked, after which the requested locks are
acquired one by one (their guards are stored in the returned context). -/
def ctxTrace (request : List (Resource × LockMode)) : List Event :=
  [.metaMutexLock, .metaMutexUnlock] ++ request.map fun rm => .lockAcquire rm.1 rm.2

/-- Events produced by dropping the `SqliteDatabaseLockContext`: each stored
guard is released, in field order. -/
def ctxDropTrace (request : List (Resource × LockMode)) : List Event :=
  (fieldOrder.filter fun r => request.any fun rm => rm.1 == r).map .lockRelease

/-- The event trace of an engine method of the shape
`let _ = self.ctx(&[...]); self.usd.<method>(...)` — which is the shape of
every `SqliteDatabase` method that takes locks (e.g. `file_metadata_set`,
lines 707–714): the context is built and immediately dropped, then the
provider is called, then the method returns. -/
def methodTrace (request : List (Resource × LockMode)) : List Event :=
  ctxTrace request ++ ctxDropTrace request ++ [.providerCall, .methodReturn]

/-- The lock set `file_metadata_set` declares (`sqlite.rs` line 711):
`[(FileMeta, Write), (File, Read)]`. -/
def fileMetadataSetRequest : List (Resource × LockMode) :=
  [(.FileMeta, .Write), (.File, .Read)]

/-- The event trace of `SqliteDatabase::file_metadata_set`. -/
def fileMetadataSetTrace : List Event :=
  methodTrace fileMetadataSetRequest

/-- Whether resource `r` is held at position `i` of the trace: acquired
strictly before `i` and not released strictly before `i`. -/
def heldAt (tr : List Event) (i : Nat) (r : Resource) : Bool :=
  ((tr.take i).any fun e =>
    match e with
    | .lockAcquire r2 _ => r2 == r
    | _ => false) &&
  ¬ ((tr.take i).any fun e =>
    match e with
    | .lockRelease r2 => r2 == r
    | _ => false)

/-- §5's first requirement, on a trace: every declared resource is held at
every provider call. -/
def locksHeldAtProviderCalls (tr : List Event) (request : List (Resource × LockMode)) : Bool :=
  (List.range tr.length).all fun i =>
    match tr.get? i with
    | some .providerCall => request.all fun rm => heldAt tr i rm.1
    | _ => true

/-- §5's second requirement, on a trace: the global ordering mutex is held
at every lock acquisition (locked before it and not yet unlocked). -/
def mutexHeldAtAcquires (tr : List Event) : Bool :=
  (List.range tr.length).all fun i =>
    match tr.get? i with
    | some (.lockAcquire _ _) =>
      ((tr.take i).any (· == .metaMutexLock)) &&
        ¬ ((tr.take i).any (· == .metaMutexUnlock))
    | _ => true

/-- §5's third requirement, on a trace: the mutex is not held during the
provider call. -/
def mutexNotHeldAtProviderCalls (tr : List Event) : Bool :=
  (List.range tr.length).all fun i =>
    match tr.get? i with
    | some .providerCall =>
      ¬ (((tr.take i).any (· == .metaMutexLock)) &&
          ¬ ((tr.take i).any (· == .metaMutexUnlock)))
    | _ => true

end Locks

/-! ## Concrete example data used by the theorems -/

namespace Examples

/-- Two files in the root directory, each with a stored value for key `k`. -/
def fileOne : Storage.File := ⟨1, 1, "f1", []⟩

/-- See `fileOne`. -/
def fileTwo : Storage.File := ⟨2, 1, "f2", []⟩

/-- A state where `fileOne` has `k ↦ a` and `fileTwo` has `k ↦ b`. -/
def dbMeta : Storage.DBState :=
  ⟨[⟨1, "/"⟩], [fileOne, fileTwo], [⟨1, 1, "k", "a"⟩, ⟨2, 2, "k", "b"⟩], [], 3⟩

/-- `dbMeta` after `entry_metadata_set(fileOne, k, Some c)`: both rows with
key `k` — `fileTwo`'s included — now carry value `c`. -/
def dbMetaAfter : Storage.DBState :=
  ⟨[⟨1, "/"⟩], [fileOne, fileTwo], [⟨1, 1, "k", "c"⟩, ⟨2, 2, "k", "c"⟩], [], 3⟩

/-- A state holding only the root directory. -/
def dbRoot : Storage.DBState := ⟨[⟨1, "/"⟩], [], [], [], 2⟩

/-- Directories `/foo`, `/foobar`, `/foo/sub`, `/bar`, with one file in
`/foo/sub` and one in `/bar`. -/
def dbPrefix : Storage.DBState :=
  ⟨[⟨1, "/foo"⟩, ⟨2, "/foobar"⟩, ⟨3, "/foo/sub"⟩, ⟨4, "/bar"⟩],
   [⟨1, 3, "x", []⟩, ⟨2, 4, "y", []⟩], [], [], 5⟩

/-- The `/foo` directory row of `dbPrefix`. -/
def dFoo : Storage.Directory := ⟨1, "/foo"⟩

/-- What `directory_entries dbPrefix dFoo` returns: note the entry
`/foobar`, which merely shares the string prefix `/foo`. -/
def resPrefix : List Storage.Entry :=
  [.Directory ⟨1, "/foo"⟩, .Directory ⟨2, "/foobar"⟩, .Directory ⟨3, "/foo/sub"⟩,
   .File ⟨1, 3, "x", []⟩]

/-- The reconstructed command line of the parser examples. -/
def cmd : String := "a and b or c"

/-- Lexeme `a` of `cmd`. -/
def lexA : QueryParse.Lexeme := ⟨"a", .Key, cmd, 0⟩

/-- Lexeme `and` of `cmd`. -/
def lexAnd : QueryParse.Lexeme := ⟨"and", .And, cmd, 2⟩

/-- Lexeme `b` of `cmd`. -/
def lexB : QueryParse.Lexeme := ⟨"b", .Key, cmd, 6⟩

/-- Lexeme `or` of `cmd`. -/
def lexOr : QueryParse.Lexeme := ⟨"or", .Or, cmd, 8⟩

/-- Lexeme `c` of `cmd`. -/
def lexC : QueryParse.Lexeme := ⟨"c", .Key, cmd, 11⟩

/-- The lexeme sequence of `"a and b or c"`, three bare-key factors joined
by `and` and `or`. -/
def lexemesAndOr : List QueryParse.Lexeme := [lexA, lexAnd, lexB, lexOr, lexC]

/-- A stray right parenthesis after the complete expression `k = v`. -/
def lexStray : QueryParse.Lexeme := ⟨")", .RParen, "k = v )", 6⟩

/-- The lexemes of `k = v` followed by the stray `)` of `lexStray`. -/
def lexemesTrailing : List QueryParse.Lexeme :=
  [⟨"k", .Key, "k = v )", 0⟩, ⟨"=", .Equals .Strict, "k = v )", 2⟩,
   ⟨"v", .Value, "k = v )", 4⟩, lexStray]

/-- The message `parse_factor` produces on an empty queue
(`parse.rs` line 90). -/
def msgEOF : String :=
  "Expected a key or a subquery, but no more arguments were available. Most likely you forgot to fill in the right half of an 'and' or 'or' query."

end Examples

/-! ## Supporting lemmas -/

/-- `likeMatch` with the empty pattern accepts exactly the empty string, so
matching it against every suffix always succeeds (the last tail is `[]`). -/
theorem likeMatch_nil_tails (s : List Char) :
    ((List.tails s).any fun t => Storage.likeMatch [] t) = true := by
  induction s with
  | nil => rfl
  | cons c ss ih => simp [Storage.likeMatch, List.tails, ih]

/-- A wildcard-free pattern followed by `%` matches exactly the strings that
have the pattern as a prefix. -/
theorem likeMatch_percent_append (p : List Char) (s : List Char)
    (hp : ∀ c ∈ p, c ≠ '%' ∧ c ≠ '_') :
    Storage.likeMatch (p ++ ['%']) s = p.isPrefixOf s := by
  induction p generalizing s with
  | nil =>
    simp [List.isPrefixOf, Storage.likeMatch, likeMatch_nil_tails s]
  | cons c p2 ih =>
    have hc := hp c (by simp)
    cases s with
    | nil =>
      unfold Storage.likeMatch
      simp [List.isPrefixOf, hc.1, hc.2]
    | cons c2 ss =>
      unfold Storage.likeMatch
      simp [List.isPrefixOf, hc.1, hc.2]
      rw [ih ss (fun x hx => hp x (by simp [hx]))]

/-- `(s ++ "%").toList` splits into `s.toList` and the percent sign. -/
theorem toList_append_percent (s : String) :
    (s ++ "%").toList = s.toList ++ ['%'] := by
  simp [String.toList, String.data_append]

/-- Restatement of `likeMatch_percent_append` through `List.IsPrefix`. -/
theorem likeMatch_percent_iff (p : List Char) (hp : ∀ c ∈ p, c ≠ '%' ∧ c ≠ '_')
    (s : List Char) : Storage.likeMatch (p ++ ['%']) s = true ↔ p <+: s := by
  rw [likeMatch_percent_append p s hp, List.isPrefixOf_iff_prefix]

/-! ## Claim theorems -/

/-- C1.  The claim states that `entry_metadata_set(e1, k, Some v)` leaves
every metadata pair of a distinct entry `e2` unchanged.  The code's update
branch (`sqlite.rs` lines 186–189) filters only on the key, not on the
owner, so it rewrites `(e2, k)` as well: in `dbMeta`, where `fileOne` maps
`k ↦ a` and `fileTwo` maps `k ↦ b`, setting `fileOne`'s `k` to `c` also
sets `fileTwo`'s `k` to `c` (while correctly returning `fileOne`'s previous
value `a`).  This contradicts the claim, the spec's "updates in place [the
named pair]" and the owner-scoped delete/insert branches beside it. -/
theorem metadata_set_update_crosses_owners :
    Storage.entry_metadata_set Examples.dbMeta (.File Examples.fileOne) "k" (some "c") =
      .ok (some "a", Examples.dbMetaAfter)
    ∧ Storage.entry_metadata_get Examples.dbMeta (.File Examples.fileTwo) "k" = .ok (some "b")
    ∧ Storage.entry_metadata_get Examples.dbMetaAfter (.File Examples.fileTwo) "k" = .ok (some "c") :=
  ⟨rfl, rfl, rfl⟩

/-- C2.  The claim states that `add_files` on well-parented input returns a
successful count of newly created rows.  The code performs all the work and
then unconditionally executes `return Err(ApplicationError("".to_owned()))`
(`sqlite.rs` lines 597 and 1044), so even the well-parented singleton batch
`("/a/f", [0])` against a root-only store produces that error instead of
`Ok(1)`. -/
theorem add_files_returns_error_after_success :
    Storage.add_files Examples.dbRoot [("/a/f", [0])] = .error (.ApplicationError "") :=
  rfl

/-- C3 counterexample.  The claim states `directory_entries(d)` returns no
entry outside `d`'s subtree, and in particular not `/foobar` for
`d = /foo`.  The code filters with `path LIKE d.path || '%'`
(`sqlite.rs` line 320), a plain string-prefix match, so querying `/foo`
in `dbPrefix` returns the sibling directory `/foobar`. -/
theorem directory_entries_returns_string_prefix_sibling :
    Storage.directory_entries Examples.dbPrefix Examples.dFoo = .ok Examples.resPrefix
    ∧ Storage.Entry.Directory ⟨2, "/foobar"⟩ ∈ Examples.resPrefix :=
  ⟨rfl, by decide⟩

/-- C3 (amended).  For a directory whose path is free of `LIKE` wildcards,
`directory_entries` returns exactly the stored directories whose path has
`d.path` as a *string prefix* (hence `/foobar` for `/foo` is included)
together with the files belonging to those directories. -/
theorem directory_entries_prefix_characterization
    (db : Storage.DBState) (d : Storage.Directory) (res : List Storage.Entry)
    (hw : Storage.noLikeWildcards d.path = true)
    (h : Storage.directory_entries db d = .ok res) :
    (∀ dir : Storage.Directory, Storage.Entry.Directory dir ∈ res ↔
        dir ∈ db.directories ∧ d.path.toList <+: dir.path.toList)
    ∧ (∀ f : Storage.File, Storage.Entry.File f ∈ res ↔ f ∈ db.files ∧
        ∃ dir ∈ db.directories, (d.path.toList <+: dir.path.toList)
          ∧ dir.id = f.directory_id) := by
  have hw2 : ∀ c ∈ d.path.data, c ≠ '%' ∧ c ≠ '_' := by
    simp [Storage.noLikeWildcards, List.all_eq_true] at hw
    intro c hc
    exact ⟨(hw c hc).1, (hw c hc).2⟩
  unfold Storage.directory_entries at h
  simp only [Except.ok.injEq] at h
  subst h
  constructor
  · intro dir
    simp [String.toList, List.mem_filter, toList_append_percent,
      likeMatch_percent_iff _ hw2]
  · intro f
    simp [String.toList, List.mem_filter, List.mem_map, toList_append_percent,
      likeMatch_percent_iff _ hw2, and_assoc]

/-- C3 witness: the characterization applied to the concrete `dbPrefix`
state and the `/foo` directory. -/
theorem directory_entries_prefix_characterization_witness :
    (∀ dir : Storage.Directory, Storage.Entry.Directory dir ∈ Examples.resPrefix ↔
        dir ∈ Examples.dbPrefix.directories
          ∧ Examples.dFoo.path.toList <+: dir.path.toList)
    ∧ (∀ f : Storage.File, Storage.Entry.File f ∈ Examples.resPrefix ↔
        f ∈ Examples.dbPrefix.files ∧
        ∃ dir ∈ Examples.dbPrefix.directories,
          (Examples.dFoo.path.toList <+: dir.path.toList)
            ∧ dir.id = f.directory_id) :=
  directory_entries_prefix_characterization Examples.dbPrefix Examples.dFoo
    Examples.resPrefix (by decide) rfl

/-- C4 counterexample.  The claim states `","` lexes as a `Comma` lexeme.
The literal-token table of `lex.rs` has no comma entry and `,` matches
neither a quote nor `ID_REGEX`, so lexing it fails as a non-lexable
sequence. -/
theorem comma_fails_to_lex :
    QueryLex.get_token "," = .error (.NonLexableSequence ",") :=
  rfl

/-- C4 (amended).  `LITERAL_TOKENS` tries, in order, only `(`, `)`, `==`,
`=`, `is`, `and`, `or` — with `==`, `=` and `is` all lexed as the same
payload-free `Equals` kind; `in` and `matches` are not literal tokens and
lex as identifiers (bare keys); and `"key=value"` lexes as
`[Identifier key, Equals, Identifier value]`. -/
theorem literal_token_table_and_key_equals_value :
    (QueryLex.LITERAL_TOKENS.map fun t => (String.mk t.1, t.2.2)) =
      [("(", .LParen), (")", .RParen), ("==", .Equals), ("=", .Equals),
       ("is", .Equals), ("and", .And), ("or", .Or)]
    ∧ QueryLex.lex ["key=value"] =
      .ok [⟨"key", .Identifier⟩, ⟨"=", .Equals⟩, ⟨"value", .Identifier⟩]
    ∧ QueryLex.get_token "in" = .ok (⟨"in", .Identifier⟩, "")
    ∧ QueryLex.get_token "matches" = .ok (⟨"matches", .Identifier⟩, "")
    ∧ QueryLex.get_token "== x" = .ok (⟨"==", .Equals⟩, " x")
    ∧ QueryLex.get_token "is x" = .ok (⟨"is", .Equals⟩, " x") :=
  ⟨rfl, rfl, rfl, rfl, rfl, rfl⟩

/-- C5.  Evaluation of `lex_string_literal` at the claim's inputs.  Three
divergences from the claim: the decoded content of `'a\nb'` retains both
quotes (the source seeds `ret` with the opening quote, line 108, and pushes
the closing quote, line 136); the escape `\t` decodes to the letter `t`
(the match arm at line 115 is the literal tab character, so `\t` falls to
the catch-all); and an invalid `\uHHHH` scalar such as the surrogate `D800`
fails with `NotEnoughChars` (line 95), not the `NonUtf8Sequence` promised
by the function's own doc comment.  The `MissingClosingQuote`, `NonHexChar`
and short-sequence behaviors match the claim. -/
theorem string_literal_decoding_divergences :
    QueryLex.lexStringLiteral "'a\\nb'" = .ok ("'a\nb'", "'a\\nb'")
    ∧ QueryLex.lexStringLiteral "'a\\tb'" = .ok ("'atb'", "'a\\tb'")
    ∧ QueryLex.lexStringLiteral "'\\uD800'" =
        .error (.HexSequenceError .NotEnoughChars)
    ∧ QueryLex.lexStringLiteral "'abc" = .error .MissingClosingQuote
    ∧ QueryLex.lexStringLiteral "'\\xZZ'" = .error (.HexSequenceError .NonHexChar)
    ∧ QueryLex.lexStringLiteral "'\\x4" = .error (.HexSequenceError .NotEnoughChars) :=
  ⟨rfl, rfl, rfl, rfl, rfl, rfl⟩

/-- C6 counterexample.  The claim states every parse failure and every lex
failure carries the offending token's text and source position.  Parsing an
empty queue fails with `UnexpectedEOF`, which carries only a message string
— no token and no position — and the lex failure for `","` carries the
offending text but `LexError` has no position field at all. -/
theorem unexpected_eof_carries_only_message :
    QueryParse.parse [] = .error (.UnexpectedEOF Examples.msgEOF)
    ∧ QueryParse.ParseError.lexemeInfo (.UnexpectedEOF Examples.msgEOF) = none
    ∧ QueryParse.lexErrorPosition (.NonLexableSequence ",") = none :=
  ⟨rfl, rfl, rfl⟩

/-- C6 (amended).  `UnexpectedToken` and `TrailingToken` failures carry the
offending lexeme — hence its text and command-line index — while
`UnexpectedEOF` carries only a message, and lex failures carry no position
(at most the offending substring). -/
theorem parse_error_position_payloads :
    (∀ (l : QueryParse.Lexeme) (m : String),
      (QueryParse.ParseError.UnexpectedToken (l, m)).lexemeInfo = some l)
    ∧ (∀ l : QueryParse.Lexeme,
      (QueryParse.ParseError.TrailingToken l).lexemeInfo = some l)
    ∧ (∀ m : String, (QueryParse.ParseError.UnexpectedEOF m).lexemeInfo = none)
    ∧ (∀ e : QueryLex.LexError, QueryParse.lexErrorPosition e = none)
    ∧ QueryParse.parse Examples.lexemesTrailing =
        .error (.TrailingToken Examples.lexStray) :=
  ⟨fun _ _ => rfl, fun _ => rfl, fun _ => rfl, fun _ => rfl, rfl⟩

/-- C7.  The claim states `f1 and f2 or f3` with bare-key factors parses as
`Or(And(f1, f2), f3)`.  `parse_factor` pops the lexeme after a key
*unconditionally* (`parse.rs` line 109) rather than peeking, so a bare key
followed by `and` fails with `UnexpectedToken` on the `and` lexeme — even
though the file's own grammar comment (`factor -> ... | key | ...`) and the
spec both admit a bare-key factor.  (The trailing-token half of the claim
does hold; see `parse_error_position_payloads`.) -/
theorem bare_key_before_and_fails_to_parse :
    QueryParse.parse Examples.lexemesAndOr =
      .error (.UnexpectedToken (Examples.lexAnd, "Expected 'in', '=', '==', or 'matches'.")) :=
  rfl

/-- C8.  The claim states every engine method holds its declared locks for
the whole provider call and holds the ordering mutex during acquisition.
In the source, both guards are discarded with `let _ =` and so are dropped
immediately (mutex guard: `sqlite.rs` line 659, before the acquisition
loop; lock context: line 711, before the provider call).  On the resulting
event trace of `file_metadata_set`, no declared lock is held at the
provider call and the mutex is not held at any lock acquisition; only the
"mutex not held during the provider call" part of §5 holds, vacuously. -/
theorem lock_guards_dropped_before_provider_call :
    Locks.fileMetadataSetTrace =
      [.metaMutexLock, .metaMutexUnlock,
       .lockAcquire .FileMeta .Write, .lockAcquire .File .Read,
       .lockRelease .File, .lockRelease .FileMeta,
       .providerCall, .methodReturn]
    ∧ Locks.locksHeldAtProviderCalls Locks.fileMetadataSetTrace
        Locks.fileMetadataSetRequest = false
    ∧ Locks.mutexHeldAtAcquires Locks.fileMetadataSetTrace = false
    ∧ Locks.mutexNotHeldAtProviderCalls Locks.fileMetadataSetTrace = true :=
  ⟨rfl, rfl, rfl, rfl⟩

/-- C9.  The claim states `filename()` is the final segment and that
`parent() ++ "/" ++ filename()` rebuilds the path.  `Path::filename`
(`path.rs` line 31) trims one step too far — the extra
`.trim_end_matches('/')` also removes the separator — so it returns
`"/bar"` for `/foo/bar` (its own unit test `test_filename` expects
`"bar"`) and the whole string `"/foo"` for `/foo`; reconstruction yields
`/foo//bar`.  The normalization part of the claim does hold:
`Path::new("/foo/") == Path::new("/foo")`. -/
theorem path_filename_contradicts_its_tests :
    Path.new "/foo/" = Path.new "/foo"
    ∧ Path.filename (Path.new "/foo/bar") = "/bar"
    ∧ Path.parent (Path.new "/foo/bar") = "/foo"
    ∧ Path.parent (Path.new "/foo/bar") ++ "/" ++ Path.filename (Path.new "/foo/bar")
        = "/foo//bar"
    ∧ Path.filename (Path.new "/foo") = "/foo"
    ∧ Path.filename (Path.new "/") = "/" :=
  ⟨rfl, rfl, rfl, rfl, rfl, rfl⟩

/-- C10.  For every key token `k` (and any positions), parsing
`k in ( )` succeeds with `Factor::KeyIn (k, [])`: `parse_values` is a
while-loop that simply stops on a non-value lexeme, so the empty value
list is accepted even though the grammar comment requires at least one
value. -/
theorem key_in_empty_value_list_parses (k cmd : String) (i j m n : Nat) :
    QueryParse.parse
      [⟨k, .Key, cmd, i⟩, ⟨"in", .In, cmd, j⟩,
       ⟨"(", .LParen, cmd, m⟩, ⟨")", .RParen, cmd, n⟩] =
      .ok (.mk (.mk (.KeyIn (k, [])) none) none) :=
  rfl

end MetaStore

